import Mathlib

/-!
Verification of the `eig` tensegrity core (`src/eig/src/interval.rs`,
`src/eig/src/face.rs`).

Embedding conventions:
* `f32` scalars are modelled as `ℚ` (exact arithmetic; the claims under
  study are exact algebraic statements about the computations).
* The joint store (`Vec<Joint>`) is modelled as a total map `ℕ → Joint`;
  in-place accumulator mutation becomes `Function.update`.  Out-of-bounds
  access is a caller invariant violation in the source and plays no role
  in the claims.
* `usize` indices are `ℕ`; the `as u16` casts in `face.rs` become
  `% 65536`.
* nalgebra's Euclidean norm (an external crate function involving a
  square root) is passed to `physics` as an explicit parameter
  `norm : Vec3 → ℚ`; every theorem below holds for an arbitrary such
  function.
* `Joint`, `Environment`, `Stage`, `FabricFeature` and `IntervalRole`
  live in repository files that are not part of the two sources above;
  they are modelled from the spec where noted.
-/

namespace Eig

/-- A 3-component vector over exact scalars, modelling `nalgebra::Vector3<f32>`. -/
structure Vec3 where
  x : ℚ
  y : ℚ
  z : ℚ
deriving DecidableEq, Repr

instance : Add Vec3 := ⟨fun a b => ⟨a.x + b.x, a.y + b.y, a.z + b.z⟩⟩

instance : Sub Vec3 := ⟨fun a b => ⟨a.x - b.x, a.y - b.y, a.z - b.z⟩⟩

instance : Neg Vec3 := ⟨fun a => ⟨-a.x, -a.y, -a.z⟩⟩

instance : SMul ℚ Vec3 := ⟨fun q a => ⟨q * a.x, q * a.y, q * a.z⟩⟩

/-- `nalgebra::zero()` for 3-vectors. -/
def Vec3.zero : Vec3 := ⟨0, 0, 0⟩

/-- The cross product, modelling `nalgebra`'s `Vector3::cross`. -/
def Vec3.cross (a b : Vec3) : Vec3 :=
  ⟨a.y * b.z - a.z * b.y, a.z * b.x - a.x * b.z, a.x * b.y - a.y * b.x⟩

/-- Squared Euclidean norm (used only to state that a vector is unit-length
without a square root). -/
def Vec3.norm_sq (a : Vec3) : ℚ := a.x * a.x + a.y * a.y + a.z * a.z

/-- Modelled from the spec (the `Joint` definition lives in `joint.rs`, which is
not among the given sources): a point mass with a 3D `location`, an additive
`force` accumulator and an additive `interval_mass` accumulator. -/
structure Joint where
  location : Vec3
  force : Vec3
  interval_mass : ℚ
deriving DecidableEq, Repr

/-- Modelled from the spec (the role enumeration lives in `constants.rs`, which
is not among the given sources): a closed set of roles distinguishing the two
push roles named in `interval.rs` (`NexusPush`, `ColumnPush`), the special
`FacePull` role, and ordinary pull roles (represented by `Pull`). -/
inductive IntervalRole where
  | NexusPush
  | ColumnPush
  | Pull
  | FacePull
deriving DecidableEq, Repr

/-- Modelled from the spec (the stage enumeration lives outside the given
sources): the structure lifecycle phase. -/
inductive Stage where
  | Growing
  | Shaping
  | Slack
  | Busy
  | Realizing
  | Realized
deriving DecidableEq, Repr

/-- Modelled from the spec: the total order on stages, "Growing < Shaping <
Slack < Busy < Realizing < Realized", used by the `stage <= Stage::Slack`
stiffness gate. -/
def Stage.ord : Stage → ℕ
  | .Growing => 0
  | .Shaping => 1
  | .Slack => 2
  | .Busy => 3
  | .Realizing => 4
  | .Realized => 5

instance : LE Stage := ⟨fun a b => a.ord ≤ b.ord⟩

instance Stage.decLe (a b : Stage) : Decidable (a ≤ b) :=
  inferInstanceAs (Decidable (a.ord ≤ b.ord))

/-- Modelled from the spec: the named scalar feature keys consumed by this
core. -/
inductive FabricFeature where
  | ShapingPretenstFactor
  | PretenstFactor
  | ShapingStiffnessFactor
deriving DecidableEq, Repr

/-- Modelled from the spec (the environment lives outside the given sources):
a provider of named scalar features plus the boolean `push_and_pull` flag. -/
structure Environment where
  push_and_pull : Bool
  shaping_pretenst_factor : ℚ
  pretenst_factor : ℚ
  shaping_stiffness_factor : ℚ
deriving DecidableEq, Repr

/-- Modelled from the spec: `get_float_feature` looks the named feature up in
the environment. -/
def Environment.get_float_feature (e : Environment) : FabricFeature → ℚ
  | .ShapingPretenstFactor => e.shaping_pretenst_factor
  | .PretenstFactor => e.pretenst_factor
  | .ShapingStiffnessFactor => e.shaping_stiffness_factor

/-- The `Interval` struct of `interval.rs`.  `state_length: [f32; 2]` is a
pair; slot 0 (`state_length.1`) is the growth-transition target. -/
structure Interval where
  alpha_index : ℕ
  omega_index : ℕ
  interval_role : IntervalRole
  rest_length : ℚ
  state_length : ℚ × ℚ
  stiffness : ℚ
  linear_density : ℚ
  countdown : ℕ
  max_countdown : ℕ
  unit : Vec3
  strain : ℚ
deriving DecidableEq, Repr

/-- `Interval::new` of `interval.rs`: note `state_length: [1.0; 2]` — both
slots start at `1.0` regardless of the `rest_length` argument. -/
def Interval.new (alpha_index omega_index : ℕ) (interval_role : IntervalRole)
    (rest_length stiffness linear_density : ℚ) (countdown : ℕ) : Interval :=
  { alpha_index := alpha_index
    omega_index := omega_index
    interval_role := interval_role
    rest_length := rest_length
    state_length := (1, 1)
    stiffness := stiffness
    linear_density := linear_density
    countdown := countdown
    max_countdown := countdown
    unit := Vec3.zero
    strain := 0 }

/-- `Interval::is_push` of `interval.rs`. -/
def Interval.is_push (self : Interval) : Bool :=
  self.interval_role = IntervalRole.NexusPush ∨ self.interval_role = IntervalRole.ColumnPush

/-- `Interval::ideal_length_now` of `interval.rs`. -/
def Interval.ideal_length_now (self : Interval) : ℚ :=
  if self.countdown = 0 then
    self.rest_length
  else
    let max : ℚ := (self.max_countdown : ℚ)
    let progress : ℚ := (max - (self.countdown : ℚ)) / max
    let state_length := self.state_length.1
    self.rest_length * (1 - progress) + state_length * progress

/-- `Interval::change_rest_length` of `interval.rs`. -/
def Interval.change_rest_length (self : Interval) (rest_length : ℚ) (countdown : ℕ) :
    Interval :=
  { self with
    rest_length := self.state_length.1
    state_length := (rest_length, self.state_length.2)
    max_countdown := countdown
    countdown := countdown }

/-- `Interval::multiply_rest_length` of `interval.rs`. -/
def Interval.multiply_rest_length (self : Interval) (factor : ℚ) (countdown : ℕ) :
    Interval :=
  let rest_length := self.state_length.1
  self.change_rest_length (rest_length * factor) countdown

/-- `Interval::physics` of `interval.rs`.  The joint store is passed in and the
updated store is returned together with the updated interval (`unit` and
`strain` are the two fields the source mutates on `self`).  `norm` stands for
nalgebra's `Vector3::norm` applied to `unit`.  The local Rust variable `push`
is reused there for the force vector, shadowing the boolean; here the vector is
called `push_vec`. -/
def Interval.physics (self : Interval) (joints : ℕ → Joint) (stage : Stage)
    (environment : Environment) (realizing_nuance : ℚ) (norm : Vec3 → ℚ) :
    Interval × (ℕ → Joint) :=
  let ideal_length := self.ideal_length_now
  let omega_location := (joints self.omega_index).location
  let alpha_location := (joints self.alpha_index).location
  let unit := omega_location - alpha_location
  let real_length := norm unit
  let push := self.is_push
  let ideal_length :=
    if push then
      match stage with
      | Stage.Busy | Stage.Slack => ideal_length
      | Stage.Growing | Stage.Shaping =>
          ideal_length * (1 + environment.get_float_feature FabricFeature.ShapingPretenstFactor)
      | Stage.Realizing =>
          ideal_length *
            (1 + environment.get_float_feature FabricFeature.PretenstFactor * realizing_nuance)
      | Stage.Realized =>
          ideal_length * (1 + environment.get_float_feature FabricFeature.PretenstFactor)
    else ideal_length
  let strain := (real_length - ideal_length) / ideal_length
  let strain :=
    if environment.push_and_pull = false ∧
        (push = true ∧ 0 < strain ∨ push = false ∧ strain < 0) then 0
    else strain
  let force := strain * self.stiffness
  let force :=
    if stage ≤ Stage.Slack then
      force * environment.get_float_feature FabricFeature.ShapingStiffnessFactor
    else force
  let push_vec := Vec3.zero + unit
  let self' := { self with unit := unit, strain := strain }
  if self.interval_role = IntervalRole.FacePull then
    let push_vec := (force / 6) • push_vec
    let j1 := Function.update joints self.alpha_index
      { joints self.alpha_index with force := (joints self.alpha_index).force + push_vec }
    let j2 := Function.update j1 self.omega_index
      { j1 self.omega_index with force := (j1 self.omega_index).force - push_vec }
    (self', j2)
  else
    let push_vec := (force / 2) • push_vec
    let j1 := Function.update joints self.alpha_index
      { joints self.alpha_index with force := (joints self.alpha_index).force + push_vec }
    let j2 := Function.update j1 self.omega_index
      { j1 self.omega_index with force := (j1 self.omega_index).force - push_vec }
    let half_mass := ideal_length * self.linear_density / 2
    let j3 := Function.update j2 self.alpha_index
      { j2 self.alpha_index with
        interval_mass := (j2 self.alpha_index).interval_mass + half_mass }
    let j4 := Function.update j3 self.omega_index
      { j3 self.omega_index with
        interval_mass := (j3 self.omega_index).interval_mass + half_mass }
    (self', j4)

/-- The `Face` struct of `face.rs`: three joint indices stored as `u16`. -/
structure Face where
  joints0 : ℕ
  joints1 : ℕ
  joints2 : ℕ
deriving DecidableEq, Repr

/-- `Face::new` of `face.rs`; the `u16` parameter type is modelled by
truncating each index into the `u16` range. -/
def Face.new (joint0 joint1 joint2 : ℕ) : Face :=
  ⟨joint0 % 65536, joint1 % 65536, joint2 % 65536⟩

/-- `Face::contains_joint` of `face.rs`: a linear scan of the three stored
indices. -/
def Face.contains_joint (self : Face) (joint_index : ℕ) : Bool :=
  self.joints0 = joint_index ∨ self.joints1 = joint_index ∨ self.joints2 = joint_index

/-- `Face::contains_interval` of `face.rs`; the source compares
`interval.alpha_index as u16` (and likewise omega), a truncating cast modelled
as `% 65536`. -/
def Face.contains_interval (self : Face) (interval : Interval) : Bool :=
  self.contains_joint (interval.alpha_index % 65536) &&
    self.contains_joint (interval.omega_index % 65536)

/-- `Face::project_normal` of `face.rs`.  The source computes
`aa.cross(&bb).normalize()` and DISCARDS the result (the normalized cross
product is bound to nothing), then assigns the raw edge vector `aa` to the
output parameter.  The discarded pure computation is kept as a dead `let`
(normalization, a square root, is omitted since its result is dropped). -/
def Face.project_normal (self : Face) (joints : ℕ → Joint) : Vec3 :=
  let location0 := (joints self.joints0).location
  let location1 := (joints self.joints1).location
  let location2 := (joints self.joints2).location
  let aa := location1 - location0
  let bb := location2 - location0
  let _ := aa.cross bb
  aa

/-- `Face::twitch` of `face.rs`: the `iter_mut().filter(...)` loop is modelled
as a conditional map.  `Interval::twitch` itself is repository code outside the
given sources; modelled from the spec ("delegates the actual length-envelope
application to each qualifying interval as an external capability") as the
function parameter `tw`. -/
def Face.twitch (self : Face) (intervals : List Interval)
    (delta_size_nuance attack decay : ℚ)
    (tw : Interval → ℚ → ℚ → ℚ → Interval) : List Interval :=
  intervals.map fun interval =>
    if self.contains_interval interval then tw interval delta_size_nuance attack decay
    else interval

/-! ### Helper lemmas (shared infrastructure) -/

lemma Vec3.add_def (a b : Vec3) : a + b = ⟨a.x + b.x, a.y + b.y, a.z + b.z⟩ := rfl

lemma Vec3.sub_def (a b : Vec3) : a - b = ⟨a.x - b.x, a.y - b.y, a.z - b.z⟩ := rfl

lemma Vec3.neg_def (a : Vec3) : -a = ⟨-a.x, -a.y, -a.z⟩ := rfl

lemma Vec3.smul_def (q : ℚ) (a : Vec3) : q • a = ⟨q * a.x, q * a.y, q * a.z⟩ := rfl

lemma Vec3.zero_add_vec (a : Vec3) : Vec3.zero + a = a := by
  cases a
  simp [Vec3.add_def, Vec3.zero]

lemma Vec3.add_sub_cancel_vec (a b : Vec3) : (a + b) - a = b := by
  cases a; cases b
  simp [Vec3.add_def, Vec3.sub_def]

lemma Vec3.sub_sub_cancel_vec (a b : Vec3) : (a - b) - a = -b := by
  cases a; cases b
  simp [Vec3.sub_def, Vec3.neg_def]

lemma Vec3.neg_neg_vec (a : Vec3) : -(-a) = a := by
  cases a
  simp [Vec3.neg_def]

lemma Vec3.sixth_eq_third_smul_half (f : ℚ) (u : Vec3) :
    (f / 6) • u = (1 / 3 : ℚ) • ((f / 2) • u) := by
  cases u
  simp [Vec3.smul_def]
  refine ⟨by ring, by ring, by ring⟩

/-- Helper: under `u16`-range endpoints, `contains_interval` is plain
membership of both endpoints among the face's three stored indices. -/
lemma contains_interval_iff_of_lt (f : Face) (i : Interval)
    (ha : i.alpha_index < 65536) (hw : i.omega_index < 65536) :
    f.contains_interval i = true ↔
      (f.joints0 = i.alpha_index ∨ f.joints1 = i.alpha_index ∨ f.joints2 = i.alpha_index) ∧
      (f.joints0 = i.omega_index ∨ f.joints1 = i.omega_index ∨ f.joints2 = i.omega_index) := by
  simp [Face.contains_interval, Face.contains_joint, Nat.mod_eq_of_lt ha,
    Nat.mod_eq_of_lt hw]


lemma Vec3.smul_neg_vec (q : ℚ) (a : Vec3) : q • (-a) = -(q • a) := by
  cases a
  simp [Vec3.smul_def, Vec3.neg_def]

/-- The stage-dependent pretension scaling of the ideal length as the SPEC
states it (claims C2 and C4); compared against the behavior of
`Interval.physics` below. -/
def spec_pretenst_ideal (ideal : ℚ) (push : Bool) (stage : Stage)
    (env : Environment) (nuance : ℚ) : ℚ :=
  if push then
    match stage with
    | Stage.Busy | Stage.Slack => ideal
    | Stage.Growing | Stage.Shaping => ideal * (1 + env.shaping_pretenst_factor)
    | Stage.Realizing => ideal * (1 + env.pretenst_factor * nuance)
    | Stage.Realized => ideal * (1 + env.pretenst_factor)
  else ideal

/-- The raw (unclamped) strain `(real_length - scaled_ideal) / scaled_ideal`
as the spec states it. -/
def spec_raw_strain (i : Interval) (joints : ℕ → Joint) (stage : Stage)
    (env : Environment) (nuance : ℚ) (norm : Vec3 → ℚ) : ℚ :=
  (norm ((joints i.omega_index).location - (joints i.alpha_index).location) -
      spec_pretenst_ideal i.ideal_length_now i.is_push stage env nuance) /
    spec_pretenst_ideal i.ideal_length_now i.is_push stage env nuance

/-- Helper: the strain stored by `physics` is the raw strain subjected to the
push-and-pull clamp. -/
lemma physics_strain_eq (i : Interval) (joints : ℕ → Joint) (stage : Stage)
    (env : Environment) (nuance : ℚ) (norm : Vec3 → ℚ) :
    (i.physics joints stage env nuance norm).1.strain =
      if env.push_and_pull = false ∧
          (i.is_push = true ∧ 0 < spec_raw_strain i joints stage env nuance norm ∨
            i.is_push = false ∧ spec_raw_strain i joints stage env nuance norm < 0)
      then 0
      else spec_raw_strain i joints stage env nuance norm := by
  have hraw : spec_raw_strain i joints stage env nuance norm =
      (norm ((joints i.omega_index).location - (joints i.alpha_index).location) -
          (if i.is_push then
            match stage with
            | Stage.Busy | Stage.Slack => i.ideal_length_now
            | Stage.Growing | Stage.Shaping =>
                i.ideal_length_now *
                  (1 + env.get_float_feature FabricFeature.ShapingPretenstFactor)
            | Stage.Realizing =>
                i.ideal_length_now *
                  (1 + env.get_float_feature FabricFeature.PretenstFactor * nuance)
            | Stage.Realized =>
                i.ideal_length_now *
                  (1 + env.get_float_feature FabricFeature.PretenstFactor)
          else i.ideal_length_now)) /
        (if i.is_push then
            match stage with
            | Stage.Busy | Stage.Slack => i.ideal_length_now
            | Stage.Growing | Stage.Shaping =>
                i.ideal_length_now *
                  (1 + env.get_float_feature FabricFeature.ShapingPretenstFactor)
            | Stage.Realizing =>
                i.ideal_length_now *
                  (1 + env.get_float_feature FabricFeature.PretenstFactor * nuance)
            | Stage.Realized =>
                i.ideal_length_now *
                  (1 + env.get_float_feature FabricFeature.PretenstFactor)
          else i.ideal_length_now) := by
    rw [spec_raw_strain]
    rcases Bool.eq_false_or_eq_true i.is_push with hp | hp <;>
      cases stage <;>
        simp [spec_pretenst_ideal, Environment.get_float_feature, hp]
  rw [hraw]
  by_cases hfp : i.interval_role = IntervalRole.FacePull <;>
    simp only [Interval.physics, hfp, if_true, if_false, ite_true, ite_false]

lemma spec_pretenst_ideal_pp (ideal : ℚ) (push : Bool) (stage : Stage)
    (env : Environment) (nuance : ℚ) (b : Bool) :
    spec_pretenst_ideal ideal push stage { env with push_and_pull := b } nuance =
      spec_pretenst_ideal ideal push stage env nuance := by
  cases push <;> cases stage <;> simp [spec_pretenst_ideal]

lemma spec_raw_strain_pp (i : Interval) (joints : ℕ → Joint) (stage : Stage)
    (env : Environment) (nuance : ℚ) (norm : Vec3 → ℚ) (b : Bool) :
    spec_raw_strain i joints stage { env with push_and_pull := b } nuance norm =
      spec_raw_strain i joints stage env nuance norm := by
  rw [spec_raw_strain, spec_raw_strain, spec_pretenst_ideal_pp]

lemma ideal_length_now_role (i : Interval) (r : IntervalRole) :
    ({ i with interval_role := r } : Interval).ideal_length_now =
      i.ideal_length_now := rfl

/-! ### Claims -/


/-- C6: `ideal_length_now` returns exactly `rest_length` when `countdown = 0`;
otherwise it is the exact linear interpolation
`rest_length * (1 - progress) + state_length[0] * progress` with
`progress = (max_countdown - countdown) / max_countdown`; in particular at
`countdown = max_countdown` it returns `rest_length`. -/
theorem ideal_length_now_interpolates (i : Interval) :
    (i.countdown = 0 → i.ideal_length_now = i.rest_length) ∧
    (i.countdown ≠ 0 →
      i.ideal_length_now =
        i.rest_length *
            (1 - ((i.max_countdown : ℚ) - (i.countdown : ℚ)) / (i.max_countdown : ℚ)) +
          i.state_length.1 *
            (((i.max_countdown : ℚ) - (i.countdown : ℚ)) / (i.max_countdown : ℚ))) ∧
    (i.countdown = i.max_countdown → i.ideal_length_now = i.rest_length) := by
  refine ⟨fun h => by simp [Interval.ideal_length_now, h], fun h => by
    simp [Interval.ideal_length_now, h], fun h => ?_⟩
  by_cases h0 : i.countdown = 0
  · simp [Interval.ideal_length_now, h0]
  · simp only [Interval.ideal_length_now, h0, if_false]
    rw [← h]
    simp [sub_self]

/-- C6 witness: a concrete interval with `countdown = max_countdown = 5`
evaluates to its `rest_length`. -/
theorem ideal_length_now_interpolates_witness :
    ({ Interval.new 0 1 IntervalRole.Pull 4 1 1 5 with countdown := 5, rest_length := 4
        }).ideal_length_now = 4 :=
  (ideal_length_now_interpolates
    { Interval.new 0 1 IntervalRole.Pull 4 1 1 5 with countdown := 5, rest_length := 4 }).2.2
    (by decide)

/-- C7: `multiply_rest_length(factor, countdown)` commits the old
`state_length[0]` as the new `rest_length`, sets the new target
`state_length[0] = old target * factor`, and resets `countdown` and
`max_countdown` to the given value. -/
theorem multiply_rest_length_commits_target (i : Interval) (factor : ℚ) (cd : ℕ) :
    (i.multiply_rest_length factor cd).rest_length = i.state_length.1 ∧
    (i.multiply_rest_length factor cd).state_length.1 = i.state_length.1 * factor ∧
    (i.multiply_rest_length factor cd).countdown = cd ∧
    (i.multiply_rest_length factor cd).max_countdown = cd := by
  simp [Interval.multiply_rest_length, Interval.change_rest_length]

/-- C9: `Interval::new` initializes `state_length` to `[1.0, 1.0]` regardless
of the `rest_length` argument; on a fresh interval whose countdown has been
externally decremented to `c ≠ 0`, `ideal_length_now` interpolates from the
constructor's `rest_length` toward the fixed target `1.0`; and the first
`change_rest_length` call commits `1.0` as the new baseline `rest_length`. -/
theorem new_state_length_fixed_one (a w : ℕ) (role : IntervalRole)
    (rl st ld : ℚ) (cd : ℕ) :
    (Interval.new a w role rl st ld cd).state_length = (1, 1) ∧
    (∀ c : ℕ, c ≠ 0 →
      ({ Interval.new a w role rl st ld cd with countdown := c }).ideal_length_now =
        rl * (1 - ((cd : ℚ) - (c : ℚ)) / (cd : ℚ)) +
          1 * (((cd : ℚ) - (c : ℚ)) / (cd : ℚ))) ∧
    (∀ (L : ℚ) (cd2 : ℕ),
      ((Interval.new a w role rl st ld cd).change_rest_length L cd2).rest_length = 1) := by
  refine ⟨rfl, fun c hc => ?_, fun L cd2 => rfl⟩
  simp [Interval.new, Interval.ideal_length_now, hc]

/-- C9 witness: constructed with `rest_length = 4`, `countdown = 10`, then
decremented to 5: the value is halfway from 4 to the fixed target 1. -/
theorem new_state_length_fixed_one_witness :
    ({ Interval.new 0 1 IntervalRole.Pull 4 1 1 10 with countdown := 5 }).ideal_length_now
      = 5 / 2 := by
  have h := (new_state_length_fixed_one 0 1 IntervalRole.Pull 4 1 1 10).2.1 5 (by decide)
  rw [h]
  norm_num

/-- C10: `contains_interval` compares endpoint indices only after truncation to
`u16`: its result depends only on the endpoint indices mod 65536, and a
concrete interval whose endpoints are both `≥ 65536` (65536 and 65537) is
reported as contained in the face `(0, 1, 2)` although neither endpoint index
is actually among the face's three stored joints. -/
theorem contains_interval_truncates_to_u16 :
    (∀ (f : Face) (i j : Interval),
        i.alpha_index % 65536 = j.alpha_index % 65536 →
        i.omega_index % 65536 = j.omega_index % 65536 →
        f.contains_interval i = f.contains_interval j) ∧
    ((Face.new 0 1 2).contains_interval (Interval.new 65536 65537 IntervalRole.Pull 1 1 1 0)
        = true ∧
      65536 ≤ (Interval.new 65536 65537 IntervalRole.Pull 1 1 1 0).alpha_index ∧
      65536 ≤ (Interval.new 65536 65537 IntervalRole.Pull 1 1 1 0).omega_index ∧
      (Interval.new 65536 65537 IntervalRole.Pull 1 1 1 0).alpha_index ≠
        (Face.new 0 1 2).joints0 ∧
      (Interval.new 65536 65537 IntervalRole.Pull 1 1 1 0).alpha_index ≠
        (Face.new 0 1 2).joints1 ∧
      (Interval.new 65536 65537 IntervalRole.Pull 1 1 1 0).alpha_index ≠
        (Face.new 0 1 2).joints2 ∧
      (Interval.new 65536 65537 IntervalRole.Pull 1 1 1 0).omega_index ≠
        (Face.new 0 1 2).joints0 ∧
      (Interval.new 65536 65537 IntervalRole.Pull 1 1 1 0).omega_index ≠
        (Face.new 0 1 2).joints1 ∧
      (Interval.new 65536 65537 IntervalRole.Pull 1 1 1 0).omega_index ≠
        (Face.new 0 1 2).joints2) := by
  constructor
  · intro f i j h1 h2
    simp [Face.contains_interval, h1, h2]
  · decide

/-- C10 witness: the truncation-congruence part applied at indices 65536/65537
versus 0/1. -/
theorem contains_interval_truncates_to_u16_witness :
    (Face.new 0 1 2).contains_interval (Interval.new 65536 65537 IntervalRole.Pull 1 1 1 0)
      = (Face.new 0 1 2).contains_interval (Interval.new 0 1 IntervalRole.Pull 1 1 1 0) :=
  contains_interval_truncates_to_u16.1 (Face.new 0 1 2)
    (Interval.new 65536 65537 IntervalRole.Pull 1 1 1 0)
    (Interval.new 0 1 IntervalRole.Pull 1 1 1 0) (by decide) (by decide)

/-- C8 counterexample: the claim's iff fails as stated: the interval with
`alpha_index = 65536`, `omega_index = 1` is reported as contained in the face
`(0, 1, 2)` — and `twitch` perturbs it — although its alpha endpoint is not
among the face's three stored indices. -/
theorem twitch_u16_wraparound_counterexample :
    (Face.new 0 1 2).contains_interval (Interval.new 65536 1 IntervalRole.Pull 1 1 1 0)
        = true ∧
    (Interval.new 65536 1 IntervalRole.Pull 1 1 1 0).alpha_index ≠
      (Face.new 0 1 2).joints0 ∧
    (Interval.new 65536 1 IntervalRole.Pull 1 1 1 0).alpha_index ≠
      (Face.new 0 1 2).joints1 ∧
    (Interval.new 65536 1 IntervalRole.Pull 1 1 1 0).alpha_index ≠
      (Face.new 0 1 2).joints2 ∧
    (Face.new 0 1 2).twitch [Interval.new 65536 1 IntervalRole.Pull 1 1 1 0] 0 0 0
        (fun i _ _ _ => { i with strain := 99 })
      = [{ Interval.new 65536 1 IntervalRole.Pull 1 1 1 0 with strain := 99 }] := by
  decide

/-- C8 (amended): for intervals whose endpoint indices are within the `u16`
range, `contains_interval` is true iff both endpoints appear among the face's
three stored indices, and `twitch` applies the perturbation to exactly those
intervals of the collection. -/
theorem twitch_membership_amended (f : Face) :
    (∀ i : Interval, i.alpha_index < 65536 → i.omega_index < 65536 →
      (f.contains_interval i = true ↔
        (f.joints0 = i.alpha_index ∨ f.joints1 = i.alpha_index ∨
            f.joints2 = i.alpha_index) ∧
        (f.joints0 = i.omega_index ∨ f.joints1 = i.omega_index ∨
            f.joints2 = i.omega_index))) ∧
    (∀ (intervals : List Interval) (d a c : ℚ) (tw : Interval → ℚ → ℚ → ℚ → Interval),
      (∀ i ∈ intervals, i.alpha_index < 65536 ∧ i.omega_index < 65536) →
      f.twitch intervals d a c tw = intervals.map fun i =>
        if (f.joints0 = i.alpha_index ∨ f.joints1 = i.alpha_index ∨
              f.joints2 = i.alpha_index) ∧
            (f.joints0 = i.omega_index ∨ f.joints1 = i.omega_index ∨
              f.joints2 = i.omega_index)
        then tw i d a c else i) := by
  refine ⟨fun i ha hw => contains_interval_iff_of_lt f i ha hw, ?_⟩
  intro intervals d a c tw hb
  unfold Face.twitch
  apply List.map_congr_left
  intro i hi
  rcases hb i hi with ⟨ha, hw⟩
  by_cases hc : f.contains_interval i = true
  · rw [if_pos hc, if_pos ((contains_interval_iff_of_lt f i ha hw).mp hc)]
  · rw [if_neg hc, if_neg (fun hmem =>
      hc ((contains_interval_iff_of_lt f i ha hw).mpr hmem))]

/-- C8 witness: a face whose three joints cover exactly one interval's two
endpoints plus an unrelated joint perturbs exactly that one interval. -/
theorem twitch_membership_amended_witness :
    (∀ i ∈ [Interval.new 0 1 IntervalRole.Pull 1 1 1 0,
        Interval.new 0 3 IntervalRole.Pull 1 1 1 0],
      i.alpha_index < 65536 ∧ i.omega_index < 65536) ∧
    (Face.new 0 1 2).twitch
        [Interval.new 0 1 IntervalRole.Pull 1 1 1 0,
          Interval.new 0 3 IntervalRole.Pull 1 1 1 0] 0 0 0
        (fun i _ _ _ => { i with strain := 7 })
      = [Interval.new 0 1 IntervalRole.Pull 1 1 1 0,
          Interval.new 0 3 IntervalRole.Pull 1 1 1 0].map fun i =>
          if ((Face.new 0 1 2).joints0 = i.alpha_index ∨
                (Face.new 0 1 2).joints1 = i.alpha_index ∨
                (Face.new 0 1 2).joints2 = i.alpha_index) ∧
              ((Face.new 0 1 2).joints0 = i.omega_index ∨
                (Face.new 0 1 2).joints1 = i.omega_index ∨
                (Face.new 0 1 2).joints2 = i.omega_index)
          then { i with strain := 7 } else i :=
  ⟨by decide, (twitch_membership_amended (Face.new 0 1 2)).2 _ 0 0 0 _ (by decide)⟩

/-- C1: the claim states `project_normal` writes the (normalized) cross
product of the edge vectors; the code instead discards the computed cross
product and writes the raw edge vector `aa = loc1 - loc0`.  At joints
`(0,0,0)`, `(1,0,0)`, `(0,1,0)` the code writes `(1,0,0)` although the cross
product of the edges is `(0,0,1)` (already unit length, so normalization
changes nothing), and the two differ. -/
theorem project_normal_assigns_unnormalized_edge :
    (Face.new 0 1 2).project_normal (fun k =>
        if k = 0 then ⟨⟨0, 0, 0⟩, Vec3.zero, 0⟩
        else if k = 1 then ⟨⟨1, 0, 0⟩, Vec3.zero, 0⟩
        else ⟨⟨0, 1, 0⟩, Vec3.zero, 0⟩) = ⟨1, 0, 0⟩ ∧
    Vec3.cross ((⟨1, 0, 0⟩ : Vec3) - ⟨0, 0, 0⟩) ((⟨0, 1, 0⟩ : Vec3) - ⟨0, 0, 0⟩)
      = ⟨0, 0, 1⟩ ∧
    Vec3.norm_sq ⟨0, 0, 1⟩ = 1 ∧
    (⟨1, 0, 0⟩ : Vec3) ≠ ⟨0, 0, 1⟩ := by
  refine ⟨?_, ?_, ?_, by decide⟩
  · norm_num [Face.new, Face.project_normal, Vec3.sub_def]
  · norm_num [Vec3.cross, Vec3.sub_def]
  · norm_num [Vec3.norm_sq]

/-- C2: `physics` computes the strain against an ideal length scaled, for
push-type intervals only, by the stage-dependent pretension multiplier (no
adjustment in Busy/Slack, `1 + ShapingPretenstFactor` in Growing/Shaping,
`1 + PretenstFactor * realizing_nuance` in Realizing, `1 + PretenstFactor` in
Realized), and never scaled for non-push intervals — stated via the stored
strain of a `push_and_pull = true` run, where no clamping occurs. -/
theorem physics_scales_ideal_by_stage (i : Interval) (joints : ℕ → Joint)
    (stage : Stage) (env : Environment) (nuance : ℚ) (norm : Vec3 → ℚ)
    (hpp : env.push_and_pull = true) :
    (i.physics joints stage env nuance norm).1.strain =
      (norm ((joints i.omega_index).location - (joints i.alpha_index).location) -
          spec_pretenst_ideal i.ideal_length_now i.is_push stage env nuance) /
        spec_pretenst_ideal i.ideal_length_now i.is_push stage env nuance := by
  rw [physics_strain_eq, hpp]
  rw [if_neg (by simp)]
  rw [spec_raw_strain]

/-- C2 witness: a `ColumnPush` interval of ideal length 1 at `Realized` with
`PretenstFactor = 1/10` and unit real length has strain `(1 - 11/10)/(11/10) =
-1/11`. -/
theorem physics_scales_ideal_by_stage_witness :
    ((Interval.new 0 1 IntervalRole.ColumnPush 1 1 2 0).physics
        (fun _ => ⟨⟨0, 0, 0⟩, Vec3.zero, 0⟩) Stage.Realized
        ⟨true, 3 / 10, 1 / 10, 2⟩ 1 (fun _ => 1)).1.strain = -(1 / 11) := by
  have h := physics_scales_ideal_by_stage
    (Interval.new 0 1 IntervalRole.ColumnPush 1 1 2 0)
    (fun _ => ⟨⟨0, 0, 0⟩, Vec3.zero, 0⟩) Stage.Realized
    ⟨true, 3 / 10, 1 / 10, 2⟩ 1 (fun _ => 1) rfl
  rw [h]
  norm_num [spec_pretenst_ideal, Interval.new, Interval.is_push,
    Interval.ideal_length_now]

/-- C3: with `push_and_pull = false`, the stored strain is exactly 0 when a
push-type interval computes strain > 0 or a non-push interval computes
strain < 0, and is the computed strain unchanged otherwise (the computed
strain being what the same call stores under `push_and_pull = true`). -/
theorem physics_strain_clamp (i : Interval) (joints : ℕ → Joint) (stage : Stage)
    (env : Environment) (nuance : ℚ) (norm : Vec3 → ℚ) :
    (i.physics joints stage { env with push_and_pull := false } nuance norm).1.strain =
      if i.is_push = true ∧
          0 < (i.physics joints stage { env with push_and_pull := true } nuance
              norm).1.strain ∨
          i.is_push = false ∧
          (i.physics joints stage { env with push_and_pull := true } nuance
              norm).1.strain < 0
      then 0
      else (i.physics joints stage { env with push_and_pull := true } nuance
          norm).1.strain := by
  simp only [physics_strain_eq, spec_raw_strain_pp]
  simp

/-- C4: for a non-face-pull interval with distinct endpoints, the force vector
added to the alpha joint is the negation of the force vector added to the
omega joint, and each joint's `interval_mass` grows by exactly
`scaled_ideal_length * linear_density / 2`. -/
theorem physics_force_split (i : Interval) (joints : ℕ → Joint) (stage : Stage)
    (env : Environment) (nuance : ℚ) (norm : Vec3 → ℚ)
    (hrole : i.interval_role ≠ IntervalRole.FacePull)
    (hne : i.alpha_index ≠ i.omega_index) :
    ((i.physics joints stage env nuance norm).2 i.alpha_index).force -
        (joints i.alpha_index).force =
      -(((i.physics joints stage env nuance norm).2 i.omega_index).force -
          (joints i.omega_index).force) ∧
    ((i.physics joints stage env nuance norm).2 i.alpha_index).interval_mass =
      (joints i.alpha_index).interval_mass +
        spec_pretenst_ideal i.ideal_length_now i.is_push stage env nuance *
          i.linear_density / 2 ∧
    ((i.physics joints stage env nuance norm).2 i.omega_index).interval_mass =
      (joints i.omega_index).interval_mass +
        spec_pretenst_ideal i.ideal_length_now i.is_push stage env nuance *
          i.linear_density / 2 := by
  refine ⟨?_, ?_, ?_⟩ <;>
    simp only [Interval.physics, if_neg hrole, Function.update_same,
      Function.update_noteq hne, Function.update_noteq (Ne.symm hne)]
  · rw [Vec3.add_sub_cancel_vec, Vec3.sub_sub_cancel_vec, Vec3.neg_neg_vec]
  · rcases Bool.eq_false_or_eq_true i.is_push with hp | hp <;>
      cases stage <;>
        simp [spec_pretenst_ideal, Environment.get_float_feature, hp]
  · rcases Bool.eq_false_or_eq_true i.is_push with hp | hp <;>
      cases stage <;>
        simp [spec_pretenst_ideal, Environment.get_float_feature, hp]

/-- C4 witness: a `ColumnPush` interval (density 2) at `Realized` with
`PretenstFactor = 1/10` adds `(11/10 * 2) / 2 = 11/10` to the alpha joint's
`interval_mass`. -/
theorem physics_force_split_witness :
    (((Interval.new 0 1 IntervalRole.ColumnPush 1 1 2 0).physics
          (fun _ => ⟨⟨0, 0, 0⟩, Vec3.zero, 0⟩) Stage.Realized
          ⟨true, 3 / 10, 1 / 10, 2⟩ 1 (fun _ => 1)).2
        (Interval.new 0 1 IntervalRole.ColumnPush 1 1 2 0).alpha_index).interval_mass
      = 11 / 10 := by
  have h := (physics_force_split (Interval.new 0 1 IntervalRole.ColumnPush 1 1 2 0)
    (fun _ => ⟨⟨0, 0, 0⟩, Vec3.zero, 0⟩) Stage.Realized
    ⟨true, 3 / 10, 1 / 10, 2⟩ 1 (fun _ => 1) (by decide) (by decide)).2.1
  rw [h]
  norm_num [spec_pretenst_ideal, Interval.new, Interval.is_push,
    Interval.ideal_length_now]

/-- C5: a face-pull interval never modifies `interval_mass` on any joint, and
the force vector applied to each endpoint is exactly 1/3 of the one that the
same interval with an ordinary (non-face-pull, non-push) role would apply
(`force/6` versus `force/2`, on the same unit vector and force). -/
theorem physics_face_pull (i : Interval) (joints : ℕ → Joint) (stage : Stage)
    (env : Environment) (nuance : ℚ) (norm : Vec3 → ℚ)
    (hrole : i.interval_role = IntervalRole.FacePull)
    (hne : i.alpha_index ≠ i.omega_index) :
    (∀ k, ((i.physics joints stage env nuance norm).2 k).interval_mass =
        (joints k).interval_mass) ∧
    ((i.physics joints stage env nuance norm).2 i.alpha_index).force -
        (joints i.alpha_index).force =
      (1 / 3 : ℚ) •
        (((({ i with interval_role := IntervalRole.Pull } : Interval).physics joints
                stage env nuance norm).2 i.alpha_index).force -
          (joints i.alpha_index).force) ∧
    ((i.physics joints stage env nuance norm).2 i.omega_index).force -
        (joints i.omega_index).force =
      (1 / 3 : ℚ) •
        (((({ i with interval_role := IntervalRole.Pull } : Interval).physics joints
                stage env nuance norm).2 i.omega_index).force -
          (joints i.omega_index).force) := by
  refine ⟨?_, ?_, ?_⟩
  · intro k
    by_cases h2 : k = i.omega_index
    · subst h2
      simp only [Interval.physics, if_pos hrole, Function.update_same,
        Function.update_noteq (Ne.symm hne)]
    · by_cases h1 : k = i.alpha_index
      · subst h1
        simp only [Interval.physics, if_pos hrole, Function.update_same,
          Function.update_noteq h2]
      · simp only [Interval.physics, if_pos hrole, Function.update_noteq h2,
          Function.update_noteq h1]
  · simp [Interval.physics, Interval.is_push, hrole, Function.update_same,
      Function.update_noteq hne, Function.update_noteq (Ne.symm hne),
      Vec3.add_sub_cancel_vec, Vec3.sixth_eq_third_smul_half, ideal_length_now_role]
  · simp [Interval.physics, Interval.is_push, hrole, Function.update_same,
      Function.update_noteq hne, Function.update_noteq (Ne.symm hne),
      Vec3.sub_sub_cancel_vec, Vec3.smul_neg_vec, Vec3.sixth_eq_third_smul_half,
      ideal_length_now_role]

/-- C5 witness: a face-pull interval leaves the `interval_mass` of an
arbitrary joint (index 5) unchanged. -/
theorem physics_face_pull_witness :
    (((Interval.new 0 1 IntervalRole.FacePull 2 1 2 0).physics
          (fun _ => ⟨⟨0, 0, 0⟩, Vec3.zero, 0⟩) Stage.Busy
          ⟨true, 3 / 10, 1 / 10, 2⟩ 1 (fun _ => 1)).2 5).interval_mass = 0 := by
  have h := (physics_face_pull (Interval.new 0 1 IntervalRole.FacePull 2 1 2 0)
    (fun _ => ⟨⟨0, 0, 0⟩, Vec3.zero, 0⟩) Stage.Busy
    ⟨true, 3 / 10, 1 / 10, 2⟩ 1 (fun _ => 1) (by decide) (by decide)).1 5
  rw [h]

end Eig
